import Mathlib

/-!
Shallow embedding of the OpenXR tutorial application (`src/Chapter2/main.cpp`,
class `OpenXRTutorial`) and proofs about its session state machine, event pump,
frame loop, capability negotiation, and resource lifecycle.

Modelling conventions:
* Opaque runtime handles (`XrSession`) are modelled as `Nat`.
* Runtime call outcomes (`xrBeginSession`, `xrEndSession`, `xrWaitFrame`, ...)
  are supplied as explicit environment inputs alongside each event/frame.
* `OPENXR_CHECK` is defined in a header that is not part of this repository's
  sources; per the spec (§4.1, §4.4, §7) a failing checked call is fatal, so a
  failing checked call is modelled as `Option.none` (abort).
* The sentinel values `XR_VIEW_CONFIGURATION_TYPE_MAX_ENUM` and
  `XR_ENVIRONMENT_BLEND_MODE_MAX_ENUM`, used by the source only as
  "not yet selected" initializers, are modelled as `Option.none`.
-/

/-- Session lifecycle states reported by the runtime (`XrSessionState`). -/
inductive XrSessionState
  | unknown
  | idle
  | ready
  | synchronized
  | visible
  | focused
  | stopping
  | lossPending
  | exiting
deriving DecidableEq, Repr

/-- View configuration types that appear in the source
(`XR_VIEW_CONFIGURATION_TYPE_PRIMARY_STEREO` / `..._PRIMARY_MONO`).
The `MAX_ENUM` sentinel is modelled as `Option.none` where needed. -/
inductive XrViewConfigurationType
  | primaryMono
  | primaryStereo
deriving DecidableEq, Repr

/-- Environment blend modes (`XR_ENVIRONMENT_BLEND_MODE_*`); the `MAX_ENUM`
sentinel is modelled as `Option.none` where needed. -/
inductive XrEnvironmentBlendMode
  | opaqueBlend
  | additive
  | alphaBlend
deriving DecidableEq, Repr

/-- The events polled by `PollEvents` through `xrPollEvent`
(the `eventData.type` switch). Session handles are `Nat`. -/
inductive XrEvent
  | eventsLost (lostEventCount : Nat)
  | instanceLossPending (lossTime : Int)
  | interactionProfileChanged (session : Nat)
  | referenceSpaceChangePending (session : Nat)
  | sessionStateChanged (session : Nat) (state : XrSessionState)
deriving DecidableEq, Repr

/-- Outcomes of the runtime session calls that `PollEvents` may issue while
handling one event (`xrBeginSession` / `xrEndSession`). -/
structure XrCallResults where
  beginSessionOk : Bool
  endSessionOk : Bool
deriving DecidableEq, Repr

/-- Runtime session calls issued by the event handler, recorded as a trace. -/
inductive XrCall
  | beginSession
  | endSession
deriving DecidableEq, Repr

/-- `GraphicsAPI::ImageViewCreateInfo` as filled out by `CreateSwapchains`
(fields that the source writes; `image` is the swapchain image index `j`
passed to `GetSwapchainImage`, `isDSV` distinguishes `Type::RTV`/`Type::DSV`
together with `Aspect::COLOR_BIT`/`Aspect::DEPTH_BIT`). -/
structure ImageViewCreateInfo where
  image : Nat
  isDSV : Bool
  format : Int
  baseMipLevel : Nat
  levelCount : Nat
  baseArrayLayer : Nat
  layerCount : Nat
deriving DecidableEq, Repr

/-- The `XrSwapchainCreateInfo` fields written by `CreateSwapchains`
(`createFlags` is always 0 and `usageFlags` always includes `SAMPLED`;
the distinguishing usage bit is kept). -/
structure XrSwapchainCreateInfo where
  usageColorAttachment : Bool
  usageDepthStencilAttachment : Bool
  format : Int
  sampleCount : Nat
  width : Nat
  height : Nat
  faceCount : Nat
  arraySize : Nat
  mipCount : Nat
deriving DecidableEq, Repr

/-- `OpenXRTutorial::SwapchainInfo`: the swapchain handle is abstracted by the
creation parameters it was created with (`createInfo`), alongside the stored
`swapchainFormat` and the image views pushed for each enumerated image. -/
structure SwapchainInfo where
  createInfo : XrSwapchainCreateInfo
  swapchainFormat : Int
  imageViews : List ImageViewCreateInfo
deriving DecidableEq, Repr

/-- `XrViewConfigurationView` fields read by the source (`recommended*`). -/
structure XrViewConfigurationView where
  recommendedImageRectWidth : Nat
  recommendedImageRectHeight : Nat
  recommendedSwapchainSampleCount : Nat
deriving DecidableEq, Repr

/-- The mutable members of `OpenXRTutorial` that the event pump and frame loop
touch: `m_SessionState`, `m_sessionRunning`, `m_applicationRunning`, and the
two swapchain-info lists. -/
structure AppState where
  sessionState : XrSessionState
  sessionRunning : Bool
  applicationRunning : Bool
  colorSwapchainInfos : List SwapchainInfo
  depthSwapchainInfos : List SwapchainInfo
deriving DecidableEq, Repr

/-- Member initializers of `OpenXRTutorial`:
`m_SessionState = XR_SESSION_STATE_UNKNOWN`, `m_applicationRunning = true`,
`m_sessionRunning = false`, empty swapchain-info lists. -/
def initialAppState : AppState :=
  { sessionState := XrSessionState.unknown
    sessionRunning := false
    applicationRunning := true
    colorSwapchainInfos := []
    depthSwapchainInfos := [] }

/-- The `XR_TYPE_EVENT_DATA_SESSION_STATE_CHANGED` case of `PollEvents`, for a
notification whose session handle matched `m_Session`. Follows the source's
if-chain on `sessionStateChanged->state` and the final unconditional
`m_SessionState = sessionStateChanged->state`. `OPENXR_CHECK` around
`xrBeginSession`/`xrEndSession` lives in a header outside this repository's
sources and is modelled from the spec: a failure of either call is fatal
(`none`). -/
def handleSessionStateChanged (res : XrCallResults) (s : AppState) :
    XrSessionState → Option (AppState × List XrCall)
  | XrSessionState.ready =>
      if res.beginSessionOk then
        some ({ s with sessionRunning := true, sessionState := XrSessionState.ready },
          [XrCall.beginSession])
      else none
  | XrSessionState.stopping =>
      if res.endSessionOk then
        some ({ s with sessionRunning := false, sessionState := XrSessionState.stopping },
          [XrCall.endSession])
      else none
  | XrSessionState.exiting =>
      some ({ s with sessionRunning := false, applicationRunning := false, sessionState := XrSessionState.exiting }, [])
  | XrSessionState.lossPending =>
      some ({ s with sessionRunning := false, applicationRunning := false, sessionState := XrSessionState.lossPending }, [])
  | st => some ({ s with sessionState := st }, [])

/-- One iteration of the `switch (eventData.type)` in `PollEvents`.
`mSession` is the owned `m_Session` handle. Events for other sessions are
logged and ignored (`break` after the handle check). -/
def processEvent (mSession : Nat) (res : XrCallResults) (s : AppState) :
    XrEvent → Option (AppState × List XrCall)
  | XrEvent.eventsLost _ => some (s, [])
  | XrEvent.instanceLossPending _ =>
      some ({ s with sessionRunning := false, applicationRunning := false }, [])
  | XrEvent.interactionProfileChanged _ => some (s, [])
  | XrEvent.referenceSpaceChangePending _ => some (s, [])
  | XrEvent.sessionStateChanged session state =>
      if session = mSession then handleSessionStateChanged res s state
      else some (s, [])

/-- `PollEvents`: drain the queued events in order (`while (XrPollEvents())`),
threading the application state and concatenating the session-call trace. -/
def pollEvents (mSession : Nat) :
    AppState → List (XrEvent × XrCallResults) → Option (AppState × List XrCall)
  | s, [] => some (s, [])
  | s, (e, r) :: rest =>
      match processEvent mSession r s e with
      | none => none
      | some (s1, calls1) =>
          match pollEvents mSession s1 rest with
          | none => none
          | some (s2, calls2) => some (s2, calls1 ++ calls2)

/-- States on which the `PollEvents` if-chain writes `m_sessionRunning`. -/
def relevantState : XrSessionState → Bool
  | XrSessionState.ready => true
  | XrSessionState.stopping => true
  | XrSessionState.exiting => true
  | XrSessionState.lossPending => true
  | _ => false

/-- Value `m_sessionRunning` takes after handling one owned
session-state-changed notification, given its previous value. -/
def stepSessionRunning (b : Bool) : XrSessionState → Bool
  | XrSessionState.ready => true
  | XrSessionState.stopping => false
  | XrSessionState.exiting => false
  | XrSessionState.lossPending => false
  | _ => b

/-- Specification-side account of `SessionRunning` over a sequence of owned
session-state notifications: it is true iff the most recent notification that
touches the flag (`Ready`/`Stopping`/`Exiting`/`LossPending`) carried `Ready`;
with no such notification it keeps its initial value. -/
def sessionRunningAfter (init : Bool) (states : List XrSessionState) : Bool :=
  match (states.filter relevantState).getLast? with
  | some XrSessionState.ready => true
  | some _ => false
  | none => init

/-- The renderability check in `RenderFrame`:
`m_SessionState == SYNCHRONIZED || VISIBLE || FOCUSED`. -/
def sessionIsActive (st : XrSessionState) : Bool :=
  st = XrSessionState.synchronized || st = XrSessionState.visible ||
    st = XrSessionState.focused

/-- Runtime responses consumed by one execution of `RenderFrame`:
outcomes of `xrWaitFrame` / `xrBeginFrame` / `xrEndFrame`, the frame state's
`predictedDisplayTime` and `shouldRender`, the outcome of `xrLocateViews`
(`some viewCount` on `XR_SUCCESS`, `none` otherwise), and whether every
per-view `xrAcquireSwapchainImage` / `xrWaitSwapchainImage` /
`xrReleaseSwapchainImage` call succeeded. -/
structure RenderEnv where
  waitFrameOk : Bool
  predictedDisplayTime : Int
  shouldRender : Bool
  beginFrameOk : Bool
  locateViewCount : Option Nat
  swapchainOpsOk : Bool
  endFrameOk : Bool
deriving DecidableEq, Repr

/-- `RenderLayer`: on `xrLocateViews` failure, log and `return false` with
`layerProjectionViews` left empty; on success, resize `layerProjectionViews`
to the runtime-reported view count, run the per-view loop (whose checked
swapchain calls are fatal on failure, and which runs only when the view count
is nonzero), and `return true`. Result: `(rendered, layerProjectionViews.size)`. -/
def renderLayer (env : RenderEnv) : Option (Bool × Nat) :=
  match env.locateViewCount with
  | none => some (false, 0)
  | some viewCount =>
      if viewCount ≠ 0 && !env.swapchainOpsOk then none
      else some (true, viewCount)

/-- `RenderFrame`: wait/begin the frame, call `RenderLayer` only when the
session is active and `frameState.shouldRender` is set, push the projection
layer onto `renderLayerInfo.layers` iff `RenderLayer` returned true, and end
the frame. Returns the post-frame member state (the source assigns no members
here), the `layerCount` passed to `xrEndFrame`, and the number of projection
views in the submitted layer. -/
def renderFrame (s : AppState) (env : RenderEnv) : Option (AppState × Nat × Nat) :=
  if !env.waitFrameOk then none
  else if !env.beginFrameOk then none
  else
    match (if sessionIsActive s.sessionState && env.shouldRender then renderLayer env
           else some (false, 0)) with
    | none => none
    | some (rendered, projectionViewCount) =>
        if !env.endFrameOk then none
        else some (s, (if rendered then 1 else 0), projectionViewCount)

/-- Environment inputs for one iteration of the `while (m_applicationRunning)`
loop in `Run`: the events `xrPollEvent` delivers this iteration (with the
outcomes of any session calls their handling triggers) and the runtime
responses for a potential `RenderFrame`. -/
structure IterInput where
  events : List (XrEvent × XrCallResults)
  frame : RenderEnv
deriving DecidableEq, Repr

/-- The main loop of `Run`: while `m_applicationRunning`, call `PollEvents`,
then `RenderFrame` iff `m_sessionRunning`. The returned trace records, per
executed iteration, `some layerCount` when `RenderFrame` was invoked (with the
layer count it passed to `xrEndFrame`) and `none` when it was skipped.
The input list is a finite prefix of the environment's behaviour; the loop
also stops when it is exhausted. -/
def runLoop (mSession : Nat) :
    AppState → List IterInput → Option (AppState × List (Option Nat))
  | s, [] => some (s, [])
  | s, it :: rest =>
      if s.applicationRunning then
        match pollEvents mSession s it.events with
        | none => none
        | some (s1, _) =>
            if s1.sessionRunning then
              match renderFrame s1 it.frame with
              | none => none
              | some (s2, layerCount, _) =>
                  match runLoop mSession s2 rest with
                  | none => none
                  | some (s3, trace) => some (s3, some layerCount :: trace)
            else
              match runLoop mSession s1 rest with
              | none => none
              | some (s3, trace) => some (s3, none :: trace)
      else some (s, [])

/-- The selection loop shared by `GetViewConfigurationViews` and
`GetEnvironmentBlendModes`: walk the application's preference list and stop at
the first entry found (`std::find`) in the runtime-supported list; `none`
models the selection member still holding its `MAX_ENUM` sentinel. -/
def pickFirst {α : Type} [DecidableEq α] : List α → List α → Option α
  | [], _ => none
  | p :: ps, supported =>
      if p ∈ supported then some p else pickFirst ps supported

/-- View-configuration negotiation in `GetViewConfigurationViews`:
pick the first of `m_applicationViewConfigurations` present in the enumerated
`m_viewConfigurations`; if the selection still holds the sentinel afterwards,
warn and default to `PRIMARY_STEREO`. -/
def selectViewConfiguration
    (appViewConfigurations viewConfigurations : List XrViewConfigurationType) :
    XrViewConfigurationType :=
  match pickFirst appViewConfigurations viewConfigurations with
  | some v => v
  | none => XrViewConfigurationType.primaryStereo

/-- Blend-mode negotiation in `GetEnvironmentBlendModes`: pick the first of
`m_applicationEnvironmentBlendModes` present in the enumerated
`m_environmentBlendModes`; if the selection still holds the sentinel
afterwards, warn and default to `OPAQUE`. -/
def selectEnvironmentBlendMode
    (appModes modes : List XrEnvironmentBlendMode) : XrEnvironmentBlendMode :=
  match pickFirst appModes modes with
  | some v => v
  | none => XrEnvironmentBlendMode.opaqueBlend

/-- Spec-side statement of the negotiation algorithm (spec §4.3): the first
entry of the preference list present in the supported set, else the default. -/
def negotiateSpec {α : Type} [DecidableEq α]
    (prefs supported : List α) (dflt : α) : α :=
  (prefs.find? (fun p => decide (p ∈ supported))).getD dflt

/-- `m_applicationViewConfigurations = { PRIMARY_STEREO, PRIMARY_MONO }`. -/
def applicationViewConfigurations : List XrViewConfigurationType :=
  [XrViewConfigurationType.primaryStereo, XrViewConfigurationType.primaryMono]

/-- `m_applicationEnvironmentBlendModes = { OPAQUE, ADDITIVE }`. -/
def applicationEnvironmentBlendModes : List XrEnvironmentBlendMode :=
  [XrEnvironmentBlendMode.opaqueBlend, XrEnvironmentBlendMode.additive]

/-- The color `SwapchainInfo` built by one iteration of the `CreateSwapchains`
loop for view configuration view `v`: create info with the color usage bits
and the view's recommended size/sample count, the stored format, and one RTV
image view per enumerated swapchain image. -/
def mkColorSwapchainInfo (colorFormat : Int) (v : XrViewConfigurationView)
    (imageCount : Nat) : SwapchainInfo :=
  { createInfo :=
      { usageColorAttachment := true
        usageDepthStencilAttachment := false
        format := colorFormat
        sampleCount := v.recommendedSwapchainSampleCount
        width := v.recommendedImageRectWidth
        height := v.recommendedImageRectHeight
        faceCount := 1
        arraySize := 1
        mipCount := 1 }
    swapchainFormat := colorFormat
    imageViews :=
      (List.range imageCount).map (fun j =>
        { image := j
          isDSV := false
          format := colorFormat
          baseMipLevel := 0
          levelCount := 1
          baseArrayLayer := 0
          layerCount := 1 }) }

/-- The depth `SwapchainInfo` built by one iteration of the `CreateSwapchains`
loop: depth-stencil usage, same recommended size/sample count, DSV views. -/
def mkDepthSwapchainInfo (depthFormat : Int) (v : XrViewConfigurationView)
    (imageCount : Nat) : SwapchainInfo :=
  { createInfo :=
      { usageColorAttachment := false
        usageDepthStencilAttachment := true
        format := depthFormat
        sampleCount := v.recommendedSwapchainSampleCount
        width := v.recommendedImageRectWidth
        height := v.recommendedImageRectHeight
        faceCount := 1
        arraySize := 1
        mipCount := 1 }
    swapchainFormat := depthFormat
    imageViews :=
      (List.range imageCount).map (fun j =>
        { image := j
          isDSV := true
          format := depthFormat
          baseMipLevel := 0
          levelCount := 1
          baseArrayLayer := 0
          layerCount := 1 }) }

/-- The per-view loop of `CreateSwapchains`, indexed from `i`:
`imageCounts i = (colorSwapchainImageCount, depthSwapchainImageCount)` as
reported by `xrEnumerateSwapchainImages` for view `i`'s swapchains. -/
def createSwapchainsAux (colorFormat depthFormat : Int)
    (imageCounts : Nat → Nat × Nat) :
    Nat → List XrViewConfigurationView → List SwapchainInfo × List SwapchainInfo
  | _, [] => ([], [])
  | i, v :: rest =>
      let p := createSwapchainsAux colorFormat depthFormat imageCounts (i + 1) rest
      (mkColorSwapchainInfo colorFormat v (imageCounts i).1 :: p.1,
        mkDepthSwapchainInfo depthFormat v (imageCounts i).2 :: p.2)

/-- `CreateSwapchains`: resize `m_colorSwapchainInfos`/`m_depthSwapchainInfos`
to the view count and fill one color/depth pair per view configuration view. -/
def createSwapchains (viewConfigurationViews : List XrViewConfigurationView)
    (colorFormat depthFormat : Int) (imageCounts : Nat → Nat × Nat) :
    List SwapchainInfo × List SwapchainInfo :=
  createSwapchainsAux colorFormat depthFormat imageCounts 0 viewConfigurationViews

/-- Color or depth member of a swapchain pair. -/
inductive SwapchainKind
  | color
  | depth
deriving DecidableEq, Repr

/-- Create/destroy calls issued by `Run` and its helpers, recorded as a trace.
`view` is the view-configuration-view index, `image` the swapchain image
index. -/
inductive LifecycleOp
  | createInstance
  | createDebugMessenger
  | createSession
  | createReferenceSpace
  | createSwapchain (view : Nat) (kind : SwapchainKind)
  | createImageView (view : Nat) (kind : SwapchainKind) (image : Nat)
  | destroyImageView (view : Nat) (kind : SwapchainKind) (image : Nat)
  | destroySwapchain (view : Nat) (kind : SwapchainKind)
  | destroyReferenceSpace
  | destroySession
  | destroyDebugMessenger
  | destroyInstance
deriving DecidableEq, Repr

/-- Creation calls of one `CreateSwapchains` loop iteration for view `i` with
`c` color and `d` depth swapchain images: color swapchain, depth swapchain,
then the color image views, then the depth image views. -/
def createViewBlock (i c d : Nat) : List LifecycleOp :=
  [LifecycleOp.createSwapchain i SwapchainKind.color,
   LifecycleOp.createSwapchain i SwapchainKind.depth] ++
  (List.range c).map (LifecycleOp.createImageView i SwapchainKind.color) ++
  (List.range d).map (LifecycleOp.createImageView i SwapchainKind.depth)

/-- Destruction calls of one `DestroySwapchains` loop iteration for view `i`:
color image views, depth image views, then the color and depth swapchains. -/
def destroyViewBlock (i c d : Nat) : List LifecycleOp :=
  (List.range c).map (LifecycleOp.destroyImageView i SwapchainKind.color) ++
  (List.range d).map (LifecycleOp.destroyImageView i SwapchainKind.depth) ++
  [LifecycleOp.destroySwapchain i SwapchainKind.color,
   LifecycleOp.destroySwapchain i SwapchainKind.depth]

/-- The `CreateSwapchains` loop over views, starting at index `i`;
`imageCounts` lists the per-view (color, depth) swapchain image counts. -/
def createSwapchainsTraceAux : Nat → List (Nat × Nat) → List LifecycleOp
  | _, [] => []
  | i, (c, d) :: rest =>
      createViewBlock i c d ++ createSwapchainsTraceAux (i + 1) rest

/-- The `DestroySwapchains` loop over views (ascending `i`, like the source). -/
def destroySwapchainsTraceAux : Nat → List (Nat × Nat) → List LifecycleOp
  | _, [] => []
  | i, (c, d) :: rest =>
      destroyViewBlock i c d ++ destroySwapchainsTraceAux (i + 1) rest

/-- The creation calls issued by `Run` before the main loop, in source order:
instance, debug messenger (only when the debug-utils extension is active),
session, reference space, swapchains. `GetInstanceProperties`, `GetSystemID`
and the capability queries issue no create/destroy calls. -/
def runCreateTrace (imageCounts : List (Nat × Nat)) (debugUtilsActive : Bool) :
    List LifecycleOp :=
  [LifecycleOp.createInstance] ++
  (if debugUtilsActive then [LifecycleOp.createDebugMessenger] else []) ++
  [LifecycleOp.createSession, LifecycleOp.createReferenceSpace] ++
  createSwapchainsTraceAux 0 imageCounts

/-- The destruction calls issued by `Run` after the main loop, in source
order: swapchains, reference space, session, debug messenger (only when it
was created), instance. -/
def runDestroyTrace (imageCounts : List (Nat × Nat)) (debugUtilsActive : Bool) :
    List LifecycleOp :=
  destroySwapchainsTraceAux 0 imageCounts ++
  [LifecycleOp.destroyReferenceSpace, LifecycleOp.destroySession] ++
  (if debugUtilsActive then [LifecycleOp.destroyDebugMessenger] else []) ++
  [LifecycleOp.destroyInstance]

/-- The destroy call matching a create call (identity on destroy calls). -/
def destroyOpOf : LifecycleOp → LifecycleOp
  | LifecycleOp.createInstance => LifecycleOp.destroyInstance
  | LifecycleOp.createDebugMessenger => LifecycleOp.destroyDebugMessenger
  | LifecycleOp.createSession => LifecycleOp.destroySession
  | LifecycleOp.createReferenceSpace => LifecycleOp.destroyReferenceSpace
  | LifecycleOp.createSwapchain i k => LifecycleOp.destroySwapchain i k
  | LifecycleOp.createImageView i k j => LifecycleOp.destroyImageView i k j
  | op => op

/-- Value `m_applicationRunning` takes after handling one owned
session-state-changed notification, given its previous value. -/
def stepAppRunning (b : Bool) : XrSessionState → Bool
  | XrSessionState.exiting => false
  | XrSessionState.lossPending => false
  | _ => b

/-- Example: call results where every session call succeeds. -/
def exCallResultsOk : XrCallResults :=
  { beginSessionOk := true, endSessionOk := true }

/-- Example: a renderable state (`m_SessionState == SYNCHRONIZED`,
session begun). -/
def exActiveState : AppState :=
  { sessionState := XrSessionState.synchronized
    sessionRunning := true
    applicationRunning := true
    colorSwapchainInfos := []
    depthSwapchainInfos := [] }

/-- Example: a frame where every runtime call succeeds and `xrLocateViews`
reports two views. -/
def exRenderEnvOk : RenderEnv :=
  { waitFrameOk := true
    predictedDisplayTime := 0
    shouldRender := true
    beginFrameOk := true
    locateViewCount := some 2
    swapchainOpsOk := true
    endFrameOk := true }

/-- Example: a frame where `xrLocateViews` succeeds but reports zero views. -/
def exRenderEnvZeroViews : RenderEnv :=
  { exRenderEnvOk with locateViewCount := some 0 }

/-- Example: a frame where `xrLocateViews` fails. -/
def exRenderEnvLocateFail : RenderEnv :=
  { exRenderEnvOk with locateViewCount := none }

/-- Example: the state after the owned-session notifications
`Ready` (begin ok) then `Visible`, starting from `initialAppState`. -/
def exC1Final : AppState :=
  { sessionState := XrSessionState.visible
    sessionRunning := true
    applicationRunning := true
    colorSwapchainInfos := []
    depthSwapchainInfos := [] }

/-- Example: `exActiveState` after an instance-loss-pending notification. -/
def exC4Final : AppState :=
  { sessionState := XrSessionState.synchronized
    sessionRunning := false
    applicationRunning := false
    colorSwapchainInfos := []
    depthSwapchainInfos := [] }

/-- Example: one iteration input delivering an instance-loss-pending event. -/
def exC4Iter : IterInput :=
  { events := [(XrEvent.instanceLossPending 5, exCallResultsOk)]
    frame := exRenderEnvOk }

/-- Example: one view configuration view. -/
def exViewCfgView : XrViewConfigurationView :=
  { recommendedImageRectWidth := 1920
    recommendedImageRectHeight := 1080
    recommendedSwapchainSampleCount := 1 }

/-- Example: per-view swapchain image counts reported by the runtime. -/
def exImageCounts : Nat → Nat × Nat := fun _ => (3, 2)

/-- Handling one owned session-state-changed notification, when it completes,
updates exactly the three lifecycle members, as dictated by the notified
state. -/
lemma handleSessionStateChanged_some (res : XrCallResults) (s : AppState)
    (st : XrSessionState) (s' : AppState) (calls : List XrCall)
    (h : handleSessionStateChanged res s st = some (s', calls)) :
    s' = { s with sessionState := st,
                  sessionRunning := stepSessionRunning s.sessionRunning st,
                  applicationRunning := stepAppRunning s.applicationRunning st } := by
  cases st <;>
    cases hb : res.beginSessionOk <;> cases he : res.endSessionOk <;>
      simp_all [handleSessionStateChanged, stepSessionRunning, stepAppRunning]

/-- Draining a single event equals processing that event
(the call trace of one event is its own call list). -/
lemma pollEvents_singleton (mSession : Nat) (r : XrCallResults) (s : AppState)
    (e : XrEvent) : pollEvents mSession s [(e, r)] = processEvent mSession r s e := by
  unfold pollEvents
  cases h : processEvent mSession r s e with
  | none => rfl
  | some p =>
      cases p with
      | mk s1 c1 => simp [pollEvents]

/-- An owned session-state-changed notification, when it completes, yields
exactly the member update of `handleSessionStateChanged`. -/
lemma processEvent_owned (mSession : Nat) (r : XrCallResults) (s s' : AppState)
    (st : XrSessionState) (calls : List XrCall)
    (h : processEvent mSession r s (XrEvent.sessionStateChanged mSession st) =
      some (s', calls)) :
    s' = { s with sessionState := st,
                  sessionRunning := stepSessionRunning s.sessionRunning st,
                  applicationRunning := stepAppRunning s.applicationRunning st } := by
  simp only [processEvent, if_pos rfl] at h
  exact handleSessionStateChanged_some r s st s' calls h

/-- No event handler ever sets `m_applicationRunning` back to true. -/
lemma processEvent_appRunning_mono (mSession : Nat) (r : XrCallResults)
    (s : AppState) (e : XrEvent) (s' : AppState) (calls : List XrCall)
    (h : processEvent mSession r s e = some (s', calls))
    (ha : s'.applicationRunning = true) : s.applicationRunning = true := by
  cases e with
  | eventsLost n => simp_all [processEvent]
  | instanceLossPending t =>
      simp only [processEvent, Option.some.injEq, Prod.mk.injEq] at h
      rw [← h.1] at ha
      simp at ha
  | interactionProfileChanged sess => simp_all [processEvent]
  | referenceSpaceChangePending sess => simp_all [processEvent]
  | sessionStateChanged sess st =>
      simp only [processEvent] at h
      by_cases hs : sess = mSession
      · rw [if_pos hs] at h
        have hrec := handleSessionStateChanged_some r s st s' calls h
        rw [hrec] at ha
        cases st <;> simp_all [stepAppRunning]
      · rw [if_neg hs] at h
        simp_all

/-- Destructuring a completed drain of a nonempty event queue. -/
lemma pollEvents_cons_some (mSession : Nat) (s : AppState) (e : XrEvent)
    (r : XrCallResults) (rest : List (XrEvent × XrCallResults)) (s' : AppState)
    (calls : List XrCall)
    (h : pollEvents mSession s ((e, r) :: rest) = some (s', calls)) :
    ∃ s1 c1 c2, processEvent mSession r s e = some (s1, c1) ∧
      pollEvents mSession s1 rest = some (s', c2) ∧ calls = c1 ++ c2 := by
  cases hp : processEvent mSession r s e with
  | none =>
      simp only [pollEvents, hp] at h
      exact Option.noConfusion h
  | some p =>
      obtain ⟨s1, c1⟩ := p
      cases hq : pollEvents mSession s1 rest with
      | none =>
          simp only [pollEvents, hp, hq] at h
          exact Option.noConfusion h
      | some q =>
          obtain ⟨s2, c2⟩ := q
          simp only [pollEvents, hp, hq, Option.some.injEq, Prod.mk.injEq] at h
          refine ⟨s1, c1, c2, rfl, ?_, h.2.symm⟩
          rw [h.1] at hq
          exact hq

/-- Draining any event list never sets `m_applicationRunning` back to true. -/
lemma pollEvents_appRunning_mono (mSession : Nat) :
    ∀ (evs : List (XrEvent × XrCallResults)) (s s' : AppState) (calls : List XrCall),
      pollEvents mSession s evs = some (s', calls) →
      s'.applicationRunning = true → s.applicationRunning = true := by
  intro evs
  induction evs with
  | nil =>
      intro s s' calls h ha
      simp only [pollEvents, Option.some.injEq, Prod.mk.injEq] at h
      rw [h.1]
      exact ha
  | cons hd tl ih =>
      intro s s' calls h ha
      obtain ⟨e, r⟩ := hd
      obtain ⟨s1, c1, c2, hp, hq, -⟩ := pollEvents_cons_some mSession s e r tl s' calls h
      exact processEvent_appRunning_mono mSession r s e s1 c1 hp (ih s1 s' c2 hq ha)

/-- After a drain pass containing an instance-loss-pending event,
`m_applicationRunning` is false. -/
lemma pollEvents_ilp_appRunning_false (mSession : Nat) (t : Int) :
    ∀ (evs : List (XrEvent × XrCallResults)) (s s' : AppState) (calls : List XrCall),
      pollEvents mSession s evs = some (s', calls) →
      XrEvent.instanceLossPending t ∈ evs.map Prod.fst →
      s'.applicationRunning = false := by
  intro evs
  induction evs with
  | nil => intro s s' calls h hmem; simp at hmem
  | cons hd tl ih =>
      intro s s' calls h hmem
      obtain ⟨e, r⟩ := hd
      obtain ⟨s1, c1, c2, hp, hq, -⟩ := pollEvents_cons_some mSession s e r tl s' calls h
      simp only [List.map_cons, List.mem_cons] at hmem
      rcases hmem with heq | hmem'
      · have heq' : XrEvent.instanceLossPending t = e := heq
        have hs1 : s1.applicationRunning = false := by
          rw [← heq'] at hp
          simp only [processEvent, Option.some.injEq, Prod.mk.injEq] at hp
          rw [← hp.1]
        cases har : s'.applicationRunning with
        | false => rfl
        | true =>
            have := pollEvents_appRunning_mono mSession tl s1 s' c2 hq har
            rw [hs1] at this
            exact Bool.noConfusion this
      · exact ih s1 s' c2 hq hmem'

/-- `RenderFrame` assigns no members: when it completes, the post-frame state
equals the pre-frame state. -/
lemma renderFrame_some_state (s : AppState) (env : RenderEnv) (s' : AppState)
    (layerCount projViews : Nat)
    (h : renderFrame s env = some (s', layerCount, projViews)) : s' = s := by
  unfold renderFrame at h
  repeat' split at h
  all_goals simp_all

/-- C3: processing an owned session-state-changed notification carrying
`Exiting` or `LossPending` always yields `SessionRunning = false` and
`ApplicationRunning = false` (and records the new state), regardless of the
prior state, issuing no session call. -/
theorem spec_C3_exiting_lossPending_stops (mSession : Nat) (res : XrCallResults)
    (s : AppState) (st : XrSessionState)
    (h : st = XrSessionState.exiting ∨ st = XrSessionState.lossPending) :
    processEvent mSession res s (XrEvent.sessionStateChanged mSession st) =
      some ({ s with sessionState := st, sessionRunning := false,
                     applicationRunning := false }, []) := by
  rcases h with h | h <;> subst h <;>
    simp [processEvent, handleSessionStateChanged]

/-- Witness for C3 at a concrete state and notification. -/
theorem spec_C3_exiting_lossPending_stops_witness :
    processEvent 0 exCallResultsOk exActiveState
        (XrEvent.sessionStateChanged 0 XrSessionState.exiting) =
      some ({ exActiveState with sessionState := XrSessionState.exiting, sessionRunning := false, applicationRunning := false }, []) :=
  spec_C3_exiting_lossPending_stops 0 exCallResultsOk exActiveState
    XrSessionState.exiting (Or.inl rfl)

/-- C6: a session-state-changed notification for a session handle other than
the owned one leaves the state unchanged and issues no session call; one for
the owned handle sets `m_SessionState` to the notified state
unconditionally. -/
theorem spec_C6_foreign_session_filtered (mSession sess : Nat)
    (res : XrCallResults) (s : AppState) (st : XrSessionState) :
    (sess ≠ mSession →
      pollEvents mSession s [(XrEvent.sessionStateChanged sess st, res)] =
        some (s, [])) ∧
    (∀ s' calls,
      pollEvents mSession s [(XrEvent.sessionStateChanged mSession st, res)] =
        some (s', calls) →
      s'.sessionState = st) := by
  constructor
  · intro hne
    rw [pollEvents_singleton]
    simp [processEvent, hne]
  · intro s' calls h
    rw [pollEvents_singleton] at h
    have := processEvent_owned mSession res s s' st calls h
    rw [this]

/-- Witness for C6: a notification for session 1 while owning session 0, and
an owned notification carrying `Visible`. -/
theorem spec_C6_foreign_session_filtered_witness :
    pollEvents 0 exActiveState
        [(XrEvent.sessionStateChanged 1 XrSessionState.exiting, exCallResultsOk)] =
      some (exActiveState, []) ∧
    ({ exActiveState with sessionState := XrSessionState.visible } :
      AppState).sessionState = XrSessionState.visible :=
  ⟨(spec_C6_foreign_session_filtered 0 1 exCallResultsOk exActiveState
      XrSessionState.exiting).1 (by decide),
   (spec_C6_foreign_session_filtered 0 0 exCallResultsOk exActiveState
      XrSessionState.visible).2
     { exActiveState with sessionState := XrSessionState.visible }
     [] (by decide)⟩

/-- The source's selection loop computes the first preference found in the
supported list. -/
lemma pickFirst_eq_find? {α : Type} [DecidableEq α]
    (prefs supported : List α) :
    pickFirst prefs supported = prefs.find? (fun p => decide (p ∈ supported)) := by
  induction prefs with
  | nil => rfl
  | cons p ps ih =>
      by_cases hp : p ∈ supported
      · simp [pickFirst, List.find?_cons_of_pos, hp]
      · simp [pickFirst, List.find?_cons_of_neg, hp, ih]

/-- C5: both negotiations (view configuration and environment blend mode)
select the first entry of the preference list present in the supported list,
falling back to the hardcoded default (`PRIMARY_STEREO` / `OPAQUE`) when no
entry matches, and never fail; in particular, with preferences
`[Stereo, Mono]` and supported set `{Mono}`, `Mono` is selected. -/
theorem spec_C5_negotiation_first_match :
    (∀ prefs supported : List XrViewConfigurationType,
      selectViewConfiguration prefs supported =
        negotiateSpec prefs supported XrViewConfigurationType.primaryStereo) ∧
    (∀ prefs supported : List XrEnvironmentBlendMode,
      selectEnvironmentBlendMode prefs supported =
        negotiateSpec prefs supported XrEnvironmentBlendMode.opaqueBlend) ∧
    selectViewConfiguration
        [XrViewConfigurationType.primaryStereo, XrViewConfigurationType.primaryMono]
        [XrViewConfigurationType.primaryMono] =
      XrViewConfigurationType.primaryMono := by
  refine ⟨?_, ?_, by decide⟩
  · intro prefs supported
    simp only [selectViewConfiguration, negotiateSpec, pickFirst_eq_find?]
    cases prefs.find? (fun p => decide (p ∈ supported)) <;> simp
  · intro prefs supported
    simp only [selectEnvironmentBlendMode, negotiateSpec, pickFirst_eq_find?]
    cases prefs.find? (fun p => decide (p ∈ supported)) <;> simp

/-- C9: a completed frame (`RenderFrame` and the `RenderLayer` step within it)
leaves `SessionState`, `SessionRunning`, and `ApplicationRunning` exactly as
they were before the frame. -/
theorem spec_C9_frame_reads_only (s : AppState) (env : RenderEnv)
    (s' : AppState) (layerCount projViews : Nat)
    (h : renderFrame s env = some (s', layerCount, projViews)) :
    s'.sessionState = s.sessionState ∧ s'.sessionRunning = s.sessionRunning ∧
      s'.applicationRunning = s.applicationRunning := by
  rw [renderFrame_some_state s env s' layerCount projViews h]
  exact ⟨rfl, rfl, rfl⟩

/-- Witness for C9 at a concrete renderable state and all-success frame. -/
theorem spec_C9_frame_reads_only_witness :
    exActiveState.sessionState = exActiveState.sessionState ∧
    exActiveState.sessionRunning = exActiveState.sessionRunning ∧
    exActiveState.applicationRunning = exActiveState.applicationRunning :=
  spec_C9_frame_reads_only exActiveState exRenderEnvOk exActiveState 1 2 (by decide)

/-- C7: when `xrLocateViews` fails, the frame is non-fatal and degrades:
`RenderLayer` reports nothing rendered, `xrEndFrame` is still issued with zero
layers and zero projection views, the state (hence `ApplicationRunning` and
`SessionRunning`) is unchanged, and the main loop goes on to process the rest
of its input. -/
theorem spec_C7_locate_failure_degrades (s : AppState) (env : RenderEnv)
    (hw : env.waitFrameOk = true) (hb : env.beginFrameOk = true)
    (he : env.endFrameOk = true) (hl : env.locateViewCount = none) :
    renderFrame s env = some (s, 0, 0) ∧
    (∀ (mSession : Nat) (rest : List IterInput),
      s.applicationRunning = true → s.sessionRunning = true →
      runLoop mSession s ({ events := [], frame := env } :: rest) =
        (runLoop mSession s rest).map (fun p => (p.1, some 0 :: p.2))) := by
  have hframe : renderFrame s env = some (s, 0, 0) := by
    simp [renderFrame, hw, hb, he, hl, renderLayer]
  refine ⟨hframe, ?_⟩
  intro mSession rest hA hS
  simp only [runLoop, hA, pollEvents, hS, hframe, if_true]
  cases hr : runLoop mSession s rest with
  | none => simp
  | some p => cases p with | mk s3 tr => simp

/-- Witness for C7 at a concrete renderable state and locate-failing frame. -/
theorem spec_C7_locate_failure_degrades_witness :
    renderFrame exActiveState exRenderEnvLocateFail = some (exActiveState, 0, 0) ∧
    runLoop 0 exActiveState [{ events := [], frame := exRenderEnvLocateFail }] =
      (runLoop 0 exActiveState []).map (fun p => (p.1, some 0 :: p.2)) :=
  ⟨(spec_C7_locate_failure_degrades exActiveState exRenderEnvLocateFail
      rfl rfl rfl rfl).1,
   (spec_C7_locate_failure_degrades exActiveState exRenderEnvLocateFail
      rfl rfl rfl rfl).2 0 [] rfl rfl⟩

/-- C2 counterexample: a frame in a renderable state with should-render set
where `xrLocateViews` succeeds reporting zero views. `RenderLayer` returns
true, so `xrEndFrame` receives exactly one projection layer even though zero
projection-view entries were produced — contradicting the claim that one
layer is submitted only when at least one projection-view entry exists. -/
theorem spec_C2_counterexample :
    renderFrame exActiveState exRenderEnvZeroViews = some (exActiveState, 1, 0) ∧
    ¬((1 : Nat) = 1 ↔
      (sessionIsActive exActiveState.sessionState = true ∧
        exRenderEnvZeroViews.shouldRender = true ∧ 1 ≤ (0 : Nat))) := by
  decide

/-- C2 as amended: `xrEndFrame` receives exactly one composition layer iff
the session was renderable, the runtime recommended rendering, and the
locate-views call succeeded; otherwise it receives zero layers. The submitted
layer references one projection view per runtime-reported view — possibly
zero. -/
theorem spec_C2_amended_layer_count (s : AppState) (env : RenderEnv)
    (s' : AppState) (layerCount projViews : Nat)
    (h : renderFrame s env = some (s', layerCount, projViews)) :
    (layerCount = 1 ↔
      (sessionIsActive s.sessionState = true ∧ env.shouldRender = true ∧
        env.locateViewCount.isSome = true)) ∧
    (layerCount = 1 ∨ layerCount = 0) ∧
    (layerCount = 1 → projViews = env.locateViewCount.getD 0) := by
  unfold renderFrame at h
  split at h
  · exact Option.noConfusion h
  split at h
  · exact Option.noConfusion h
  split at h
  next heq => exact Option.noConfusion h
  next rendered pvc heq =>
    split at h
    · exact Option.noConfusion h
    next hEnd =>
      simp only [Option.some.injEq, Prod.mk.injEq] at h
      obtain ⟨-, hlc, hpv⟩ := h
      by_cases hc : sessionIsActive s.sessionState && env.shouldRender
      · rw [if_pos hc] at heq
        rw [Bool.and_eq_true] at hc
        cases hl : env.locateViewCount with
        | none =>
            simp only [renderLayer, hl, Option.some.injEq, Prod.mk.injEq] at heq
            obtain ⟨hr, hp0⟩ := heq
            subst hr
            subst hp0
            simp only [Bool.false_eq_true, if_false] at hlc
            subst hlc
            subst hpv
            simp
        | some viewCount =>
            simp only [renderLayer, hl] at heq
            split at heq
            · exact Option.noConfusion heq
            simp only [Option.some.injEq, Prod.mk.injEq] at heq
            obtain ⟨hr, hpc⟩ := heq
            subst hr
            subst hpc
            simp only [if_true] at hlc
            subst hlc
            subst hpv
            simp [hc.1, hc.2]
      · rw [if_neg hc] at heq
        rw [Bool.and_eq_true] at hc
        simp only [Option.some.injEq, Prod.mk.injEq] at heq
        obtain ⟨hr, hp0⟩ := heq
        subst hr
        subst hp0
        simp only [Bool.false_eq_true, if_false] at hlc
        subst hlc
        subst hpv
        refine ⟨?_, Or.inr rfl, ?_⟩
        · constructor
          · intro h0; exact absurd h0 (by simp)
          · intro hrhs
            exact absurd (And.intro hrhs.1 hrhs.2.1) hc
        · intro h0; exact absurd h0 (by simp)

/-- Witness for the amended C2 at a concrete two-view frame. -/
theorem spec_C2_amended_layer_count_witness :
    ((1 : Nat) = 1 ↔
      (sessionIsActive exActiveState.sessionState = true ∧
        exRenderEnvOk.shouldRender = true ∧
        exRenderEnvOk.locateViewCount.isSome = true)) ∧
    ((1 : Nat) = 1 ∨ (1 : Nat) = 0) ∧
    ((1 : Nat) = 1 → (2 : Nat) = exRenderEnvOk.locateViewCount.getD 0) :=
  spec_C2_amended_layer_count exActiveState exRenderEnvOk exActiveState 1 2
    (by decide)

/-- Prepending one notification to the spec-side account folds into the
step function. -/
lemma sessionRunningAfter_cons (init : Bool) (st : XrSessionState)
    (l : List XrSessionState) :
    sessionRunningAfter init (st :: l) =
      sessionRunningAfter (stepSessionRunning init st) l := by
  cases st <;>
    simp only [sessionRunningAfter, stepSessionRunning, relevantState,
      List.filter_cons] <;>
    first
      | rfl
      | (cases hfl : l.filter relevantState with
         | nil => simp [hfl]
         | cons b t =>
             simp [hfl, List.getLast?_cons_cons]
             cases hg : (b :: t).getLast? with
             | none => exact absurd (List.getLast?_eq_none_iff.mp hg) (by simp)
             | some x => cases x <;> rfl)

/-- Completing an owned session-state-changed notification realizes the step
function on `m_sessionRunning`. -/
lemma processEvent_owned_sessionRunning (mSession : Nat) (r : XrCallResults)
    (s s' : AppState) (st : XrSessionState) (calls : List XrCall)
    (h : processEvent mSession r s (XrEvent.sessionStateChanged mSession st) =
      some (s', calls)) :
    s'.sessionRunning = stepSessionRunning s.sessionRunning st := by
  rw [processEvent_owned mSession r s s' st calls h]

/-- Over any completed drain of owned session-state-changed notifications,
`m_sessionRunning` equals the spec-side account started from its initial
value. -/
lemma pollEvents_owned_sessionRunning (mSession : Nat) :
    ∀ (evs : List (XrSessionState × XrCallResults)) (s0 s' : AppState)
      (calls : List XrCall),
      pollEvents mSession s0
          (evs.map (fun p => (XrEvent.sessionStateChanged mSession p.1, p.2))) =
        some (s', calls) →
      s'.sessionRunning = sessionRunningAfter s0.sessionRunning (evs.map Prod.fst) := by
  intro evs
  induction evs with
  | nil =>
      intro s0 s' calls h
      simp only [List.map_nil, pollEvents, Option.some.injEq, Prod.mk.injEq] at h
      rw [← h.1]
      simp [sessionRunningAfter]
  | cons hd tl ih =>
      intro s0 s' calls h
      obtain ⟨st, r⟩ := hd
      rw [List.map_cons] at h
      obtain ⟨s1, c1, c2, hp, hq, -⟩ :=
        pollEvents_cons_some mSession s0 (XrEvent.sessionStateChanged mSession st) r
          (tl.map (fun p => (XrEvent.sessionStateChanged mSession p.1, p.2))) s' calls h
      rw [List.map_cons, sessionRunningAfter_cons]
      rw [← processEvent_owned_sessionRunning mSession r s0 s1 st c1 hp]
      exact ih s1 s' c2 hq

/-- C1: over any completed drain of owned session-state-changed notifications
starting with `SessionRunning = false`, the final `SessionRunning` is true iff
the most recent notification touching the flag carried `Ready` and no later
`Stopping`/`Exiting`/`LossPending` notification occurred (completion of the
drain means every triggered begin-session call succeeded). -/
theorem spec_C1_session_running_iff (mSession : Nat) (s0 : AppState)
    (evs : List (XrSessionState × XrCallResults)) (s' : AppState)
    (calls : List XrCall) (h0 : s0.sessionRunning = false)
    (h : pollEvents mSession s0
        (evs.map (fun p => (XrEvent.sessionStateChanged mSession p.1, p.2))) =
      some (s', calls)) :
    (s'.sessionRunning = true ↔
      ((evs.map Prod.fst).filter relevantState).getLast? =
        some XrSessionState.ready) := by
  rw [pollEvents_owned_sessionRunning mSession evs s0 s' calls h, h0,
    sessionRunningAfter]
  cases hg : ((evs.map Prod.fst).filter relevantState).getLast? with
  | none => simp
  | some st => cases st <;> simp

/-- Witness for C1: owned notifications `Ready` (begin ok) then `Visible`
leave the session running; the last flag-touching notification is `Ready`. -/
theorem spec_C1_session_running_iff_witness :
    initialAppState.sessionRunning = false ∧
    pollEvents 0 initialAppState
        [(XrEvent.sessionStateChanged 0 XrSessionState.ready, exCallResultsOk),
         (XrEvent.sessionStateChanged 0 XrSessionState.visible, exCallResultsOk)] =
      some (exC1Final, [XrCall.beginSession]) ∧
    (exC1Final.sessionRunning = true ↔
      (([XrSessionState.ready, XrSessionState.visible]).filter relevantState).getLast? =
        some XrSessionState.ready) :=
  ⟨rfl, by decide,
   spec_C1_session_running_iff 0 initialAppState
     [(XrSessionState.ready, exCallResultsOk),
      (XrSessionState.visible, exCallResultsOk)]
     exC1Final [XrCall.beginSession] rfl (by decide)⟩

/-- Once `m_applicationRunning` is false, the main loop exits at once:
no iteration is executed and no frame trace is produced. -/
lemma runLoop_not_running (mSession : Nat) (s : AppState)
    (iters : List IterInput) (h : s.applicationRunning = false) :
    runLoop mSession s iters = some (s, []) := by
  cases iters with
  | nil => rfl
  | cons it rest => simp [runLoop, h]

/-- If iteration `k` of the main loop receives an instance-loss-pending
notification, the loop trace extends at most one entry beyond index `k`. -/
lemma runLoop_ilp_trace_length (mSession : Nat) (t : Int) :
    ∀ (k : Nat) (iters : List IterInput) (s : AppState) (it : IterInput)
      (sF : AppState) (trace : List (Option Nat)),
      iters.get? k = some it →
      XrEvent.instanceLossPending t ∈ it.events.map Prod.fst →
      runLoop mSession s iters = some (sF, trace) →
      trace.length ≤ k + 1 := by
  intro k
  induction k with
  | zero =>
      intro iters s it sF trace hget hmem hrun
      cases iters with
      | nil => exact Option.noConfusion hget
      | cons it0 rest =>
          have hit : it0 = it := by
            simp only [List.get?] at hget
            exact Option.some.inj hget
          subst hit
          by_cases hA : s.applicationRunning
          · rw [runLoop, if_pos hA] at hrun
            cases hp : pollEvents mSession s it0.events with
            | none => simp only [hp] at hrun; exact Option.noConfusion hrun
            | some p =>
                obtain ⟨s1, cs⟩ := p
                simp only [hp] at hrun
                have hA1 : s1.applicationRunning = false :=
                  pollEvents_ilp_appRunning_false mSession t it0.events s s1 cs hp hmem
                by_cases hS : s1.sessionRunning
                · rw [if_pos hS] at hrun
                  cases hr : renderFrame s1 it0.frame with
                  | none => simp only [hr] at hrun; exact Option.noConfusion hrun
                  | some q =>
                      obtain ⟨s2, lc, pv⟩ := q
                      simp only [hr] at hrun
                      have hs2 : s2 = s1 := renderFrame_some_state s1 it0.frame s2 lc pv hr
                      simp only [runLoop_not_running mSession s2 rest (hs2 ▸ hA1)] at hrun
                      simp only [Option.some.injEq, Prod.mk.injEq] at hrun
                      rw [← hrun.2]
                      simp
                · rw [if_neg hS] at hrun
                  simp only [runLoop_not_running mSession s1 rest hA1] at hrun
                  simp only [Option.some.injEq, Prod.mk.injEq] at hrun
                  rw [← hrun.2]
                  simp
          · rw [runLoop, if_neg hA] at hrun
            simp only [Option.some.injEq, Prod.mk.injEq] at hrun
            rw [← hrun.2]
            simp
  | succ k ih =>
      intro iters s it sF trace hget hmem hrun
      cases iters with
      | nil => exact Option.noConfusion hget
      | cons it0 rest =>
          have hget' : rest.get? k = some it := hget
          by_cases hA : s.applicationRunning
          · rw [runLoop, if_pos hA] at hrun
            cases hp : pollEvents mSession s it0.events with
            | none => simp only [hp] at hrun; exact Option.noConfusion hrun
            | some p =>
                obtain ⟨s1, cs⟩ := p
                simp only [hp] at hrun
                by_cases hS : s1.sessionRunning
                · rw [if_pos hS] at hrun
                  cases hr : renderFrame s1 it0.frame with
                  | none => simp only [hr] at hrun; exact Option.noConfusion hrun
                  | some q =>
                      obtain ⟨s2, lc, pv⟩ := q
                      simp only [hr] at hrun
                      cases hq : runLoop mSession s2 rest with
                      | none => simp only [hq] at hrun; exact Option.noConfusion hrun
                      | some w =>
                          obtain ⟨s3, tr⟩ := w
                          simp only [hq] at hrun
                          simp only [Option.some.injEq, Prod.mk.injEq] at hrun
                          rw [← hrun.2]
                          have := ih rest s2 it s3 tr hget' hmem hq
                          simpa using Nat.succ_le_succ this
                · rw [if_neg hS] at hrun
                  cases hq : runLoop mSession s1 rest with
                  | none => simp only [hq] at hrun; exact Option.noConfusion hrun
                  | some w =>
                      obtain ⟨s3, tr⟩ := w
                      simp only [hq] at hrun
                      simp only [Option.some.injEq, Prod.mk.injEq] at hrun
                      rw [← hrun.2]
                      have := ih rest s1 it s3 tr hget' hmem hq
                      simpa using Nat.succ_le_succ this
          · rw [runLoop, if_neg hA] at hrun
            simp only [Option.some.injEq, Prod.mk.injEq] at hrun
            rw [← hrun.2]
            simp

/-- C4: an instance-loss-pending notification is handled with no session
filtering: it unconditionally clears `SessionRunning` and
`ApplicationRunning`; and if iteration `k` of the main loop receives one, the
loop's frame trace ends at iteration `k` — no render-frame call occurs in any
later iteration. -/
theorem spec_C4_instance_loss_stops_loop (mSession : Nat) (t : Int)
    (res : XrCallResults) (s : AppState) :
    (processEvent mSession res s (XrEvent.instanceLossPending t) =
      some ({ s with sessionRunning := false, applicationRunning := false }, [])) ∧
    (∀ (iters : List IterInput) (k : Nat) (it : IterInput) (sF : AppState)
       (trace : List (Option Nat)),
      iters.get? k = some it →
      XrEvent.instanceLossPending t ∈ it.events.map Prod.fst →
      runLoop mSession s iters = some (sF, trace) →
      trace.length ≤ k + 1 ∧ ∀ j, k + 1 ≤ j → trace.get? j = none) := by
  refine ⟨rfl, ?_⟩
  intro iters k it sF trace hget hmem hrun
  have hlen := runLoop_ilp_trace_length mSession t k iters s it sF trace hget hmem hrun
  exact ⟨hlen, fun j hj => List.get?_eq_none.mpr (le_trans hlen hj)⟩

/-- Witness for C4: the loss notification arrives in iteration 0 of a
two-iteration input; only one trace entry is produced. -/
theorem spec_C4_instance_loss_stops_loop_witness :
    (processEvent 0 exCallResultsOk exActiveState (XrEvent.instanceLossPending 5) =
      some ({ exActiveState with sessionRunning := false, applicationRunning := false }, [])) ∧
    ([(none : Option Nat)].length ≤ 0 + 1 ∧
      ∀ j, 0 + 1 ≤ j → [(none : Option Nat)].get? j = none) :=
  ⟨(spec_C4_instance_loss_stops_loop 0 5 exCallResultsOk exActiveState).1,
   (spec_C4_instance_loss_stops_loop 0 5 exCallResultsOk exActiveState).2
     [exC4Iter, exC4Iter] 0 exC4Iter exC4Final [none]
     rfl (by decide) (by decide)⟩

/-- Two elements drawn from the two sides of an append form a sublist. -/
lemma pair_sublist {α : Type} {a b : α} {l1 l2 : List α}
    (ha : a ∈ l1) (hb : b ∈ l2) : List.Sublist [a, b] (l1 ++ l2) :=
  List.Sublist.append (List.singleton_sublist.mpr ha)
    (List.singleton_sublist.mpr hb)

/-- A sublist of the right part extends over a prepended list. -/
lemma sublist_trans_right {α : Type} {x l2 : List α} (l1 : List α)
    (h : List.Sublist x l2) : List.Sublist x (l1 ++ l2) :=
  h.trans (List.sublist_append_right l1 l2)

/-- The `DestroySwapchains` loop trace decomposes around the block of any
view index present in the image-count list. -/
lemma destroySwapchainsTraceAux_decomp :
    ∀ (ic : List (Nat × Nat)) (i k c d : Nat), ic.get? i = some (c, d) →
      ∃ pre post, destroySwapchainsTraceAux k ic =
        pre ++ (destroyViewBlock (k + i) c d ++ post) := by
  intro ic
  induction ic with
  | nil => intro i k c d h; exact Option.noConfusion h
  | cons hd tl ih =>
      intro i k c d h
      obtain ⟨c0, d0⟩ := hd
      cases i with
      | zero =>
          simp only [List.get?, Option.some.injEq, Prod.mk.injEq] at h
          refine ⟨[], destroySwapchainsTraceAux (k + 1) tl, ?_⟩
          simp [destroySwapchainsTraceAux, h.1, h.2]
      | succ i' =>
          have h' : tl.get? i' = some (c, d) := h
          obtain ⟨pre, post, heq⟩ := ih i' (k + 1) c d h'
          refine ⟨destroyViewBlock k c0 d0 ++ pre, post, ?_⟩
          have hidx : k + 1 + i' = k + (i' + 1) := by omega
          simp [destroySwapchainsTraceAux, heq, hidx, List.append_assoc]

/-- C8 counterexample: with one view and one image per swapchain (and the
debug messenger active), the shutdown call sequence is not the exact reverse
of the startup call sequence — per view, the image views and the color/depth
pair are destroyed in creation order, not reversed. -/
theorem spec_C8_counterexample :
    runDestroyTrace [(1, 1)] true ≠
      (runCreateTrace [(1, 1)] true).reverse.map destroyOpOf := by
  decide

/-- C8 as amended: teardown reverses creation at the resource-phase level —
every image view is destroyed before its owning swapchain, every swapchain
before the reference space, the reference space before the session, the
session before the debug messenger (when present) and the instance, and the
debug messenger before the instance. (Within the swapchain phase, the
per-view blocks and the color/depth pairs follow creation order instead of
reversing it, as the counterexample shows.) -/
theorem spec_C8_amended_teardown_order (ic : List (Nat × Nat)) (dbg : Bool) :
    (∀ i c d, ic.get? i = some (c, d) →
      (∀ j, j < c →
        List.Sublist [LifecycleOp.destroyImageView i SwapchainKind.color j,
          LifecycleOp.destroySwapchain i SwapchainKind.color]
          (runDestroyTrace ic dbg)) ∧
      (∀ j, j < d →
        List.Sublist [LifecycleOp.destroyImageView i SwapchainKind.depth j,
          LifecycleOp.destroySwapchain i SwapchainKind.depth]
          (runDestroyTrace ic dbg)) ∧
      List.Sublist [LifecycleOp.destroySwapchain i SwapchainKind.color,
        LifecycleOp.destroyReferenceSpace] (runDestroyTrace ic dbg) ∧
      List.Sublist [LifecycleOp.destroySwapchain i SwapchainKind.depth,
        LifecycleOp.destroyReferenceSpace] (runDestroyTrace ic dbg)) ∧
    List.Sublist [LifecycleOp.destroyReferenceSpace, LifecycleOp.destroySession]
      (runDestroyTrace ic dbg) ∧
    List.Sublist [LifecycleOp.destroySession, LifecycleOp.destroyInstance]
      (runDestroyTrace ic dbg) ∧
    (dbg = true →
      List.Sublist [LifecycleOp.destroySession, LifecycleOp.destroyDebugMessenger]
        (runDestroyTrace ic dbg) ∧
      List.Sublist [LifecycleOp.destroyDebugMessenger, LifecycleOp.destroyInstance]
        (runDestroyTrace ic dbg)) := by
  have hE0 : runDestroyTrace ic dbg =
      destroySwapchainsTraceAux 0 ic ++
        ([LifecycleOp.destroyReferenceSpace] ++ ([LifecycleOp.destroySession] ++
          ((if dbg then [LifecycleOp.destroyDebugMessenger] else []) ++
            [LifecycleOp.destroyInstance]))) := by
    simp [runDestroyTrace, List.append_assoc]
  refine ⟨?_, ?_, ?_, ?_⟩
  · intro i c d hget
    obtain ⟨pre, post, hdec⟩ :=
      destroySwapchainsTraceAux_decomp ic i 0 c d hget
    rw [Nat.zero_add] at hdec
    have hE : runDestroyTrace ic dbg =
        pre ++
          ((List.range c).map (LifecycleOp.destroyImageView i SwapchainKind.color) ++
            ((List.range d).map (LifecycleOp.destroyImageView i SwapchainKind.depth) ++
              ([LifecycleOp.destroySwapchain i SwapchainKind.color,
                LifecycleOp.destroySwapchain i SwapchainKind.depth] ++
                (post ++
                  ([LifecycleOp.destroyReferenceSpace] ++
                    ([LifecycleOp.destroySession] ++
                      ((if dbg then [LifecycleOp.destroyDebugMessenger] else []) ++
                        [LifecycleOp.destroyInstance]))))))) := by
      rw [hE0, hdec]
      simp [destroyViewBlock, List.append_assoc]
    refine ⟨?_, ?_, ?_, ?_⟩
    · intro j hj
      rw [hE]
      refine sublist_trans_right pre (pair_sublist ?_ ?_)
      · exact List.mem_map.mpr ⟨j, List.mem_range.mpr hj, rfl⟩
      · simp
    · intro j hj
      rw [hE]
      refine sublist_trans_right pre (sublist_trans_right _ (pair_sublist ?_ ?_))
      · exact List.mem_map.mpr ⟨j, List.mem_range.mpr hj, rfl⟩
      · simp
    · rw [hE]
      exact sublist_trans_right pre (sublist_trans_right _ (sublist_trans_right _
        (pair_sublist (by simp) (by simp))))
    · rw [hE]
      exact sublist_trans_right pre (sublist_trans_right _ (sublist_trans_right _
        (pair_sublist (by simp) (by simp))))
  · rw [hE0]
    exact sublist_trans_right _ (pair_sublist (by simp) (by simp))
  · rw [hE0]
    exact sublist_trans_right _ (sublist_trans_right _
      (pair_sublist (by simp) (by simp)))
  · intro hdbg
    rw [hdbg] at hE0
    simp only [if_true] at hE0
    constructor
    · rw [hdbg, hE0]
      exact sublist_trans_right _ (sublist_trans_right _
        (pair_sublist (by simp) (by simp)))
    · rw [hdbg, hE0]
      exact sublist_trans_right _ (sublist_trans_right _ (sublist_trans_right _
        (pair_sublist (by simp) (by simp))))

/-- Witness for the amended C8: two views with one image per swapchain. -/
theorem spec_C8_amended_teardown_order_witness :
    List.Sublist [LifecycleOp.destroyImageView 1 SwapchainKind.color 0,
      LifecycleOp.destroySwapchain 1 SwapchainKind.color]
      (runDestroyTrace [(1, 1), (1, 1)] true) ∧
    List.Sublist [LifecycleOp.destroySwapchain 1 SwapchainKind.depth,
      LifecycleOp.destroyReferenceSpace] (runDestroyTrace [(1, 1), (1, 1)] true) ∧
    List.Sublist [LifecycleOp.destroyReferenceSpace, LifecycleOp.destroySession]
      (runDestroyTrace [(1, 1), (1, 1)] true) :=
  ⟨((spec_C8_amended_teardown_order [(1, 1), (1, 1)] true).1 1 1 1 rfl).1 0
      (by decide),
   ((spec_C8_amended_teardown_order [(1, 1), (1, 1)] true).1 1 1 1 rfl).2.2.2,
   (spec_C8_amended_teardown_order [(1, 1), (1, 1)] true).2.1⟩

/-- No event handler touches the swapchain-info lists. -/
lemma processEvent_swapchains (mSession : Nat) (r : XrCallResults)
    (s : AppState) (e : XrEvent) (s' : AppState) (calls : List XrCall)
    (h : processEvent mSession r s e = some (s', calls)) :
    s'.colorSwapchainInfos = s.colorSwapchainInfos ∧
      s'.depthSwapchainInfos = s.depthSwapchainInfos := by
  cases e with
  | eventsLost n =>
      simp only [processEvent, Option.some.injEq, Prod.mk.injEq] at h
      rw [← h.1]
      exact ⟨rfl, rfl⟩
  | instanceLossPending t =>
      simp only [processEvent, Option.some.injEq, Prod.mk.injEq] at h
      rw [← h.1]
      exact ⟨rfl, rfl⟩
  | interactionProfileChanged sess =>
      simp only [processEvent, Option.some.injEq, Prod.mk.injEq] at h
      rw [← h.1]
      exact ⟨rfl, rfl⟩
  | referenceSpaceChangePending sess =>
      simp only [processEvent, Option.some.injEq, Prod.mk.injEq] at h
      rw [← h.1]
      exact ⟨rfl, rfl⟩
  | sessionStateChanged sess st =>
      simp only [processEvent] at h
      by_cases hs : sess = mSession
      · rw [if_pos hs] at h
        rw [handleSessionStateChanged_some r s st s' calls h]
        exact ⟨rfl, rfl⟩
      · rw [if_neg hs] at h
        simp only [Option.some.injEq, Prod.mk.injEq] at h
        rw [← h.1]
        exact ⟨rfl, rfl⟩

/-- The event pump never touches the swapchain-info lists. -/
lemma pollEvents_swapchains (mSession : Nat) :
    ∀ (evs : List (XrEvent × XrCallResults)) (s s' : AppState)
      (calls : List XrCall),
      pollEvents mSession s evs = some (s', calls) →
      s'.colorSwapchainInfos = s.colorSwapchainInfos ∧
        s'.depthSwapchainInfos = s.depthSwapchainInfos := by
  intro evs
  induction evs with
  | nil =>
      intro s s' calls h
      simp only [pollEvents, Option.some.injEq, Prod.mk.injEq] at h
      rw [← h.1]
      exact ⟨rfl, rfl⟩
  | cons hd tl ih =>
      intro s s' calls h
      obtain ⟨e, r⟩ := hd
      obtain ⟨s1, c1, c2, hp, hq, -⟩ :=
        pollEvents_cons_some mSession s e r tl s' calls h
      have h1 := processEvent_swapchains mSession r s e s1 c1 hp
      have h2 := ih s1 s' c2 hq
      exact ⟨h2.1.trans h1.1, h2.2.trans h1.2⟩

/-- The `CreateSwapchains` loop produces one color and one depth info per
remaining view. -/
lemma createSwapchainsAux_length (colorFormat depthFormat : Int)
    (imageCounts : Nat → Nat × Nat) :
    ∀ (views : List XrViewConfigurationView) (i : Nat),
      (createSwapchainsAux colorFormat depthFormat imageCounts i views).1.length =
        views.length ∧
      (createSwapchainsAux colorFormat depthFormat imageCounts i views).2.length =
        views.length := by
  intro views
  induction views with
  | nil => intro i; exact ⟨rfl, rfl⟩
  | cons v rest ih =>
      intro i
      simp [createSwapchainsAux, (ih (i + 1)).1, (ih (i + 1)).2]

/-- Entry `j` of the `CreateSwapchains` loop output, starting at view index
`i`, is the pair built from view `j` with the image counts of view `i + j`. -/
lemma createSwapchainsAux_get? (colorFormat depthFormat : Int)
    (imageCounts : Nat → Nat × Nat) :
    ∀ (views : List XrViewConfigurationView) (i j : Nat)
      (v : XrViewConfigurationView), views.get? j = some v →
      (createSwapchainsAux colorFormat depthFormat imageCounts i views).1.get? j =
        some (mkColorSwapchainInfo colorFormat v (imageCounts (i + j)).1) ∧
      (createSwapchainsAux colorFormat depthFormat imageCounts i views).2.get? j =
        some (mkDepthSwapchainInfo depthFormat v (imageCounts (i + j)).2) := by
  intro views
  induction views with
  | nil => intro i j v h; exact Option.noConfusion h
  | cons v0 rest ih =>
      intro i j v h
      cases j with
      | zero =>
          simp only [List.get?, Option.some.injEq] at h
          subst h
          constructor <;> simp [createSwapchainsAux]
      | succ j' =>
          have h' : rest.get? j' = some v := h
          have hres := ih (i + 1) j' v h'
          have hidx : i + 1 + j' = i + (j' + 1) := by omega
          have h1 := hres.1
          have h2 := hres.2
          rw [hidx] at h1 h2
          constructor
          · simp only [createSwapchainsAux, List.get?_cons_succ]
            exact h1
          · simp only [createSwapchainsAux, List.get?_cons_succ]
            exact h2

/-- C10: after `CreateSwapchains`, the color and depth info lists each have
exactly one entry per view configuration view; each pair is created with
identical width, height, and sample count taken from that view's recommended
values; each entry holds exactly one image view per image reported for its
swapchain; and neither the event pump nor the frame loop ever modifies the
lists, so the lengths stay equal to the view count until destruction. -/
theorem spec_C10_swapchain_pairs (views : List XrViewConfigurationView)
    (colorFormat depthFormat : Int) (imageCounts : Nat → Nat × Nat) :
    (createSwapchains views colorFormat depthFormat imageCounts).1.length =
      views.length ∧
    (createSwapchains views colorFormat depthFormat imageCounts).2.length =
      views.length ∧
    (∀ (i : Nat) (v : XrViewConfigurationView) (ci di : SwapchainInfo),
      views.get? i = some v →
      (createSwapchains views colorFormat depthFormat imageCounts).1.get? i =
        some ci →
      (createSwapchains views colorFormat depthFormat imageCounts).2.get? i =
        some di →
      ci.createInfo.width = v.recommendedImageRectWidth ∧
      ci.createInfo.height = v.recommendedImageRectHeight ∧
      ci.createInfo.sampleCount = v.recommendedSwapchainSampleCount ∧
      di.createInfo.width = ci.createInfo.width ∧
      di.createInfo.height = ci.createInfo.height ∧
      di.createInfo.sampleCount = ci.createInfo.sampleCount ∧
      ci.imageViews.length = (imageCounts i).1 ∧
      di.imageViews.length = (imageCounts i).2) ∧
    (∀ (mSession : Nat) (s : AppState) (evs : List (XrEvent × XrCallResults))
       (s' : AppState) (calls : List XrCall),
      pollEvents mSession s evs = some (s', calls) →
      s'.colorSwapchainInfos = s.colorSwapchainInfos ∧
        s'.depthSwapchainInfos = s.depthSwapchainInfos) ∧
    (∀ (s : AppState) (env : RenderEnv) (s' : AppState) (lc pv : Nat),
      renderFrame s env = some (s', lc, pv) →
      s'.colorSwapchainInfos = s.colorSwapchainInfos ∧
        s'.depthSwapchainInfos = s.depthSwapchainInfos) := by
  refine ⟨(createSwapchainsAux_length colorFormat depthFormat imageCounts views 0).1,
    (createSwapchainsAux_length colorFormat depthFormat imageCounts views 0).2,
    ?_, ?_, ?_⟩
  · intro i v ci di hv hc hd
    have hg := createSwapchainsAux_get? colorFormat depthFormat imageCounts
      views 0 i v hv
    rw [Nat.zero_add] at hg
    have hdef : createSwapchains views colorFormat depthFormat imageCounts =
        createSwapchainsAux colorFormat depthFormat imageCounts 0 views := rfl
    rw [hdef, hg.1] at hc
    rw [hdef, hg.2] at hd
    have hci : ci = mkColorSwapchainInfo colorFormat v (imageCounts i).1 :=
      (Option.some.inj hc).symm
    have hdi : di = mkDepthSwapchainInfo depthFormat v (imageCounts i).2 :=
      (Option.some.inj hd).symm
    subst hci
    subst hdi
    refine ⟨rfl, rfl, rfl, rfl, rfl, rfl, ?_, ?_⟩ <;>
      simp [mkColorSwapchainInfo, mkDepthSwapchainInfo]
  · intro mSession s evs s' calls h
    exact pollEvents_swapchains mSession evs s s' calls h
  · intro s env s' lc pv h
    rw [renderFrame_some_state s env s' lc pv h]
    exact ⟨rfl, rfl⟩

/-- Witness for C10 at one view with formats 55/66 and 3 color + 2 depth
images per swapchain. -/
theorem spec_C10_swapchain_pairs_witness :
    ((mkColorSwapchainInfo 55 exViewCfgView 3).createInfo.width =
        exViewCfgView.recommendedImageRectWidth ∧
      (mkColorSwapchainInfo 55 exViewCfgView 3).createInfo.height =
        exViewCfgView.recommendedImageRectHeight ∧
      (mkColorSwapchainInfo 55 exViewCfgView 3).createInfo.sampleCount =
        exViewCfgView.recommendedSwapchainSampleCount ∧
      (mkDepthSwapchainInfo 66 exViewCfgView 2).createInfo.width =
        (mkColorSwapchainInfo 55 exViewCfgView 3).createInfo.width ∧
      (mkDepthSwapchainInfo 66 exViewCfgView 2).createInfo.height =
        (mkColorSwapchainInfo 55 exViewCfgView 3).createInfo.height ∧
      (mkDepthSwapchainInfo 66 exViewCfgView 2).createInfo.sampleCount =
        (mkColorSwapchainInfo 55 exViewCfgView 3).createInfo.sampleCount ∧
      (mkColorSwapchainInfo 55 exViewCfgView 3).imageViews.length =
        (exImageCounts 0).1 ∧
      (mkDepthSwapchainInfo 66 exViewCfgView 2).imageViews.length =
        (exImageCounts 0).2) ∧
    (exActiveState.colorSwapchainInfos = exActiveState.colorSwapchainInfos ∧
      exActiveState.depthSwapchainInfos = exActiveState.depthSwapchainInfos) :=
  ⟨(spec_C10_swapchain_pairs [exViewCfgView] 55 66 exImageCounts).2.2.1 0
      exViewCfgView (mkColorSwapchainInfo 55 exViewCfgView 3)
      (mkDepthSwapchainInfo 66 exViewCfgView 2) rfl (by decide) (by decide),
   (spec_C10_swapchain_pairs [exViewCfgView] 55 66 exImageCounts).2.2.2.1 0
      exActiveState [] exActiveState [] rfl⟩
